import Mathlib

/-!
# Verification of the ha-sunforecast-plus forecasting core

Shallow embedding (over `ℚ` and `ℤ`) of the PV power model, the temporal
aggregator and the cloud-correction engine of the `ha_sunforecast_plus`
integration, together with proofs of the specified properties.

Modelling conventions:
* Naive datetimes are modelled as integer minutes since an arbitrary epoch;
  a calendar date is the integer day number `t / 1440` (floor), the hour of
  day is `(t mod 1440) / 60`.  All power/energy series timestamps and the
  cloud timestamps live in the same (UTC-offset-normalised) frame, which is
  the frame the code compares them in after its `astimezone`/`replace` calls.
* Python `float` arithmetic is modelled by exact rational arithmetic.
* Python dicts keyed by datetimes/dates are modelled as association lists
  `List (ℤ × ℚ)` in insertion order, with the dict-update and
  `defaultdict`-accumulate operations made explicit.
-/

namespace SunforecastPlus

/-! ## Association-list machinery (Python dict / defaultdict semantics) -/

/-- Lookup with a default value; first binding of the key wins
(association lists built below keep keys distinct, as Python dicts do). -/
def lookupD (m : List (ℤ × ℚ)) (k : ℤ) (d : ℚ) : ℚ :=
  match m with
  | [] => d
  | (k', v) :: rest => if k' = k then v else lookupD rest k d

/-- `defaultdict`-style accumulation: `m[k] = m.get(k, 0) + v`, keeping the
key at its original position when present and appending it otherwise. -/
def addToDict (m : List (ℤ × ℚ)) (k : ℤ) (v : ℚ) : List (ℤ × ℚ) :=
  match m with
  | [] => [(k, v)]
  | (k', v') :: rest =>
      if k' = k then (k', v' + v) :: rest else (k', v') :: addToDict rest k v

/-- Python dict assignment `m[k] = v`: overwrite in place or append. -/
def dictInsert (m : List (ℤ × ℚ)) (k : ℤ) (v : ℚ) : List (ℤ × ℚ) :=
  match m with
  | [] => [(k, v)]
  | (k', v') :: rest =>
      if k' = k then (k', v) :: rest else (k', v') :: dictInsert rest k v

/-- Accumulate a list of items into a dict, keyed and valued by the given
projections (the shape of every `defaultdict`/`dict`-building loop in the
code). -/
def accumDict {α : Type} (key : α → ℤ) (val : α → ℚ) (l : List α) :
    List (ℤ × ℚ) :=
  l.foldl (fun m a => addToDict m (key a) (val a)) []

/-- The keys of an association list. -/
def dictKeys (m : List (ℤ × ℚ)) : List ℤ := m.map Prod.fst

/-! ## Time arithmetic -/

/-- Minutes per day. -/
def minutesPerDay : ℤ := 1440

/-- `timestamp.date()` as an integer day number (Python's floor
semantics: `/` on `ℤ` is Euclidean division, which agrees with floor
division for the positive divisor 1440). -/
def dateOf (t : ℤ) : ℤ := t / minutesPerDay

/-- `timestamp.hour` (hour of day, in `[0, 24)`). -/
def hourOf (t : ℤ) : ℤ := t % minutesPerDay / 60

/-- `timestamp.replace(minute=0, second=0, microsecond=0)`: start of the
hour containing `t`. -/
def hourStart (t : ℤ) : ℤ := t - t % 60

/-! ## Python `round` (half to even) -/

/-- Python's built-in `round` on an exact rational: round half to even. -/
def pythonRound (q : ℚ) : ℤ :=
  let f := ⌊q⌋
  let r := q - (f : ℚ)
  if r < 1 / 2 then f
  else if 1 / 2 < r then f + 1
  else if 2 ∣ f then f else f + 1

/-! ## Physical constants

`constants.py` is not part of the sources provided; the Ross coefficient
value comes from the `gen_power` docstring in
`open_meteo_solar_forecast.py` and the STC constants are the standard
values the spec refers to. -/

/-- Ross coefficient, "not so well cooled": value `0.0342` stated in the
`gen_power` docstring (a fixed, non-configurable constant). -/
def RossNotSoWellCooled : ℚ := 342 / 10000

/-- Modelled from the spec: `G_STC`, the standard-test-condition irradiance
(`constants.py` is absent from the sources); standard value 1000 W/m². -/
def G_STC : ℚ := 1000

/-- Modelled from the spec: `TEMP_STC_CELL`, the standard-test-condition
cell temperature (`constants.py` is absent); standard value 25 °C. -/
def TEMP_STC_CELL : ℚ := 25

/-- Modelled from the spec: `ALPHA_TEMP`, the power temperature coefficient
(`constants.py` is absent); typical silicon value −0.004 /°C. -/
def ALPHA_TEMP : ℚ := -4 / 1000

/-! ## PV power model (`gen_power`) -/

/-- `gen_power` from `estimate()`: step-by-step product exactly as in the
source, floored at zero and rounded to a whole number of watts.
`dc_wp` is the array's DC rated power in watts (`dc_kwp * 1000`). -/
def gen_power (dc_wp gti t_amb eff : ℚ) : ℤ :=
  let temp_cell := t_amb + gti * RossNotSoWellCooled
  let power := dc_wp
  let power := power * (gti / G_STC)
  let power := power * (1 + ALPHA_TEMP * (temp_cell - TEMP_STC_CELL))
  let power := power * eff
  pythonRound (max 0 power)

/-- The closed-form power expression as the spec writes it:
`P = P_dc_rated * (G / G_STC) * (1 + alpha * (T_cell - T_STC)) * eff`
with `T_cell = T_amb + G * k_ross`.  Stated separately from `gen_power`
so the two can be compared. -/
def specPowerFormula (dc_wp gti t_amb eff : ℚ) : ℚ :=
  dc_wp * (gti / G_STC) *
    (1 + ALPHA_TEMP * ((t_amb + gti * RossNotSoWellCooled) - TEMP_STC_CELL)) * eff

/-! ## Damping coefficient -/

/-- Inner helper `linear_damping` of `calculate_damping_coefficient`:
`duration = end - start`, `elapsed = time - start`, inverted damping. -/
def linear_damping (time start stop damping : ℚ) : ℚ :=
  let duration := stop - start
  let elapsed := time - start
  let d := 1 - damping
  (elapsed / duration) * (1 - d) + d

/-- `calculate_damping_coefficient` from `estimate()`: morning ramp on
`[sunrise, midpoint]`, evening ramp on `[midpoint, sunset]` (called with the
start/end swapped, as in the source), `1` outside. -/
def calculate_damping_coefficient
    (time sunrise sunset damping_morning damping_evening : ℚ) : ℚ :=
  let morning_start := sunrise
  let morning_end := sunrise + (sunset - sunrise) / 2
  let evening_start := morning_end
  let evening_end := sunset
  if morning_start ≤ time ∧ time ≤ morning_end then
    linear_damping time morning_start morning_end damping_morning
  else if evening_start ≤ time ∧ time ≤ evening_end then
    linear_damping time evening_end evening_start damping_evening
  else 1

/-! ## Temporal aggregation (`estimate()` lines 679–699) -/

/-- Clamp every power value to the AC ceiling `ac_wp`
(`w[time] = min(w[time], ac_wp)`). -/
def clampWatts (ac_wp : ℚ) (m : List (ℤ × ℚ)) : List (ℤ × ℚ) :=
  m.map (fun p => (p.1, min p.2 ac_wp))

/-- Per-hour sums of the 15-minute averaged power samples
(`wh_period[hour] = wh_period.get(hour, 0) + power`). -/
def whPeriodSums (w_avg : List (ℤ × ℚ)) : List (ℤ × ℚ) :=
  accumDict (fun p => hourStart p.1) Prod.snd w_avg

/-- Per-hour sample counts (`wh_period_count`). -/
def whPeriodCounts (w_avg : List (ℤ × ℚ)) : List (ℤ × ℚ) :=
  accumDict (fun p => hourStart p.1) (fun _ => 1) w_avg

/-- `wh_period`: per-hour arithmetic mean of the averaged-watts samples
(`wh_period[time] /= wh_period_count[time]`). -/
def whPeriodOf (w_avg : List (ℤ × ℚ)) : List (ℤ × ℚ) :=
  (whPeriodSums w_avg).map
    (fun p => (p.1, p.2 / lookupD (whPeriodCounts w_avg) p.1 0))

/-- `wh_days`: per-date sum of the hourly values
(`wh_days[day] = wh_days.get(day, 0) + power`). -/
def whDaysOf (wh_period : List (ℤ × ℚ)) : List (ℤ × ℚ) :=
  accumDict (fun p => dateOf p.1) Prod.snd wh_period

/-- The `Estimate` result container (the three series the correction pass
reads and mutates). -/
structure Estimate where
  watts : List (ℤ × ℚ)
  wh_period : List (ℤ × ℚ)
  wh_days : List (ℤ × ℚ)
  deriving Repr, DecidableEq

/-! ## Cloud-correction engine (`_adjust_estimate_with_cloud_cover`)

Embedded from `coordinator.py` (the variant the update cycle executes);
where the `open_meteo_solar_forecast.py` duplicate differs — the daily-pass
coefficient — a second definition embeds that variant. -/

/-- `cloud_cover_dict`: zip the parsed cloud timestamps with the cover
values (the loop guards `i < len(cloud_cover_data)`, i.e. zip-truncation)
into a Python dict. -/
def buildCloudDict (times : List ℤ) (data : List ℚ) : List (ℤ × ℚ) :=
  (times.zip data).foldl (fun m p => dictInsert m p.1 p.2) []

/-- `hour_index = timestamp.hour + 24 * day_offset` with
`day_offset = (timestamp.date() - now().date()).days`. -/
def hour_index (nowDate t : ℤ) : ℤ :=
  hourOf t + (dateOf t - nowDate) * 24

/-- The index-based fallback: `cloud_cover_percent` stays `0` unless
`0 <= hour_index < len(cloud_cover_data)`. -/
def fallbackPercent (data : List ℚ) (nowDate t : ℤ) : ℚ :=
  if 0 ≤ hour_index nowDate t ∧ hour_index nowDate t < (data.length : ℤ) then
    data.getD (hour_index nowDate t).toNat 0
  else 0

/-- The nearest-timestamp scan over `cloud_cover_dict` (insertion order):
starts with no candidate and `min_difference = 24h` (1440 minutes), keeps
the first strictly-smaller difference.  Returns the winning entry and its
difference. -/
def findClosest (m : List (ℤ × ℚ)) (t : ℤ) : Option (ℤ × ℚ) × ℤ :=
  m.foldl
    (fun acc p => if |t - p.1| < acc.2 then (some p, |t - p.1|) else acc)
    (none, 24 * 60)

/-- Cloud-cover percentage used for a `watts` timestamp: nearest cloud
timestamp if the dict is non-empty and the difference is ≤ 2 hours, else
the index-based fallback. -/
def wattsCloudPercent (ctimes : List ℤ) (data : List ℚ) (nowDate t : ℤ) : ℚ :=
  let dict := buildCloudDict ctimes data
  if dict = [] then fallbackPercent data nowDate t
  else
    match findClosest dict t with
    | (some p, diff) =>
        if diff ≤ 2 * 60 then p.2 else fallbackPercent data nowDate t
    | (none, _) => fallbackPercent data nowDate t

/-- Cloud-cover percentage used for a `wh_period` timestamp: the body of
the `if cloud_cover_dict:` branch is a bare `pass`, so the percentage stays
`0` whenever the dict is non-empty; only the `else` branch runs the
index-based fallback. -/
def whPeriodCloudPercent (ctimes : List ℤ) (data : List ℚ) (nowDate t : ℤ) : ℚ :=
  let dict := buildCloudDict ctimes data
  if dict = [] then fallbackPercent data nowDate t else 0

/-- `adjustment_factor = 1.0 - (cloud_cover_percent / 100.0 * cloud_correction_factor)`. -/
def adjustmentFactor (coeff percent : ℚ) : ℚ := 1 - percent / 100 * coeff

/-- The `watts` loop: every entry is multiplied by its adjustment factor. -/
def wattsPass (ctimes : List ℤ) (data : List ℚ) (nowDate : ℤ) (coeff : ℚ)
    (watts : List (ℤ × ℚ)) : List (ℤ × ℚ) :=
  watts.map (fun p =>
    (p.1, p.2 * adjustmentFactor coeff (wattsCloudPercent ctimes data nowDate p.1)))

/-- The `wh_period` loop (with its stubbed timestamp alignment). -/
def whPeriodPass (ctimes : List ℤ) (data : List ℚ) (nowDate : ℤ) (coeff : ℚ)
    (wh_period : List (ℤ × ℚ)) : List (ℤ × ℚ) :=
  wh_period.map (fun p =>
    (p.1, p.2 * adjustmentFactor coeff (whPeriodCloudPercent ctimes data nowDate p.1)))

/-- `date_cloud_cover[date]["total"]`: per-date totals of the cloud-cover
samples, keyed by the cloud timestamp's own date (timestamps present). -/
def dateCloudTotals (ctimes : List ℤ) (data : List ℚ) : List (ℤ × ℚ) :=
  accumDict (fun p => dateOf p.1) Prod.snd (ctimes.zip data)

/-- `date_cloud_cover[date]["count"]`: per-date sample counts. -/
def dateCloudCounts (ctimes : List ℤ) (data : List ℚ) : List (ℤ × ℚ) :=
  accumDict (fun p => dateOf p.1) (fun _ => 1) (ctimes.zip data)

/-- The no-timestamps branch: slice `cloud_cover_data` into 24-hour chunks
attributed to `today + i` (`date_cloud_cover` without timestamps).  Totals. -/
def chunkTotals (data : List ℚ) (nowDate : ℤ) : List (ℤ × ℚ) :=
  ((List.range ((data.length + 23) / 24)).map
    (fun i => (nowDate + Int.ofNat i, ((data.drop (24 * i)).take 24).sum)))

/-- The no-timestamps branch, counts. -/
def chunkCounts (data : List ℚ) (nowDate : ℤ) : List (ℤ × ℚ) :=
  ((List.range ((data.length + 23) / 24)).map
    (fun i => (nowDate + Int.ofNat i, (((data.drop (24 * i)).take 24).length : ℚ))))

/-- The fallback daily average for a date with no `date_cloud_cover`
entry: mean of `cloud_cover_data[day_offset*24 : day_offset*24+24]` when
`0 <= start < len`, else `0`. -/
def daySliceAvg (data : List ℚ) (nowDate d : ℤ) : ℚ :=
  let start := (d - nowDate) * 24
  let daySlice :=
    if 0 ≤ start ∧ start < (data.length : ℤ) then
      (data.drop start.toNat).take 24
    else []
  if daySlice = [] then 0 else daySlice.sum / (daySlice.length : ℚ)

/-- `avg_cloud_cover` for a `wh_days` date: the per-date mean from
`date_cloud_cover` when the date is present with positive count, else the
slice fallback. -/
def dailyAvgCover (ctimes : List ℤ) (data : List ℚ) (nowDate d : ℤ) : ℚ :=
  let totals := if ctimes = [] then chunkTotals data nowDate
                else dateCloudTotals ctimes data
  let counts := if ctimes = [] then chunkCounts data nowDate
                else dateCloudCounts ctimes data
  if d ∈ dictKeys totals ∧ 0 < lookupD counts d 0 then
    lookupD totals d 0 / lookupD counts d 0
  else daySliceAvg data nowDate d

/-- The `wh_days` loop as the coordinator executes it: note the literal
`0.7` coefficient (`adjustment_factor = 1.0 - (avg_cloud_cover / 100.0 * 0.7)`),
independent of the configured coefficient. -/
def whDaysPassCoordinator (ctimes : List ℤ) (data : List ℚ) (nowDate : ℤ)
    (wh_days : List (ℤ × ℚ)) : List (ℤ × ℚ) :=
  wh_days.map (fun p =>
    (p.1, p.2 * (1 - dailyAvgCover ctimes data nowDate p.1 / 100 * (7 / 10))))

/-- The `wh_days` loop as written in `open_meteo_solar_forecast.py`, which
uses the configured `cloud_correction_factor`. -/
def whDaysPassClient (ctimes : List ℤ) (data : List ℚ) (nowDate : ℤ)
    (coeff : ℚ) (wh_days : List (ℤ × ℚ)) : List (ℤ × ℚ) :=
  wh_days.map (fun p =>
    (p.1, p.2 * (1 - dailyAvgCover ctimes data nowDate p.1 / 100 * coeff)))

/-- `adjustment_stats` as stored at the end of the pass. -/
structure AdjustmentStats where
  average_cloud_cover : ℚ
  total_energy_before : ℚ
  total_energy_after : ℚ
  adjustment_percentage : ℚ
  deriving Repr, DecidableEq

/-- Coordinator state touched by the correction pass: the estimate plus
the most recent `adjustment_stats` snapshot (`none` models the initial
empty dict). -/
structure CoordinatorState where
  estimate : Estimate
  adjustment_stats : Option AdjustmentStats
  deriving Repr, DecidableEq

/-- `sum(estimate.wh_period.values())`. -/
def whPeriodTotal (e : Estimate) : ℚ := (e.wh_period.map Prod.snd).sum

/-- The whole `_adjust_estimate_with_cloud_cover` pass of the coordinator:
early-returns on an empty cloud feed (leaving estimate and stats alone),
otherwise rescales the three series and records fresh statistics. -/
def adjust_estimate_with_cloud_cover (nowDate : ℤ) (coeff : ℚ)
    (ctimes : List ℤ) (data : List ℚ) (s : CoordinatorState) :
    CoordinatorState :=
  if data = [] then s
  else
    let before := whPeriodTotal s.estimate
    let watts' := wattsPass ctimes data nowDate coeff s.estimate.watts
    let whp' := whPeriodPass ctimes data nowDate coeff s.estimate.wh_period
    let whd' := whDaysPassCoordinator ctimes data nowDate s.estimate.wh_days
    let after := (whp'.map Prod.snd).sum
    let pct := if before ≠ 0 then (after - before) / before * 100 else 0
    let avg24 := (data.take 24).sum / (min 24 data.length : ℚ)
    { estimate := { watts := watts', wh_period := whp', wh_days := whd' }
    , adjustment_stats :=
        some { average_cloud_cover := avg24
             , total_energy_before := before
             , total_energy_after := after
             , adjustment_percentage := pct } }

/-- The sensor's read of the reported adjustment percentage:
`adjustment_stats.get('adjustment_percentage', 0)`. -/
def sensorReportedAdjustment (s : CoordinatorState) : ℚ :=
  match s.adjustment_stats with
  | none => 0
  | some st => st.adjustment_percentage

/-! ## Constructor validation (`OpenMeteoSolarForecast.__post_init__`) -/

/-- A scalar-or-list configuration parameter. -/
inductive PyParam where
  | scalar (x : ℚ)
  | plist (xs : List ℚ)
  deriving Repr, DecidableEq

/-- `isinstance(param, list)`. -/
def PyParam.isList : PyParam → Bool
  | .scalar _ => false
  | .plist _ => true

/-- The list payload, meaningful only when `isList`. -/
def PyParam.toList : PyParam → List ℚ
  | .scalar x => [x]
  | .plist xs => xs

/-- What `__post_init__` can raise: the explicit
`OpenMeteoSolarForecastConfigError`, or the `TypeError` Python raises when
`len(self.dc_kwp)` is evaluated on a scalar. -/
inductive InitError where
  | configError
  | typeError
  deriving Repr, DecidableEq

/-- The raw constructor arguments (the fields `__post_init__` validates). -/
structure RawConfig where
  azimuth : PyParam
  declination : PyParam
  dc_kwp : PyParam
  latitude : PyParam
  longitude : PyParam
  efficiency_factor : PyParam
  damping_morning : PyParam
  damping_evening : PyParam
  deriving Repr, DecidableEq

/-- All fields normalised to lists, as `__post_init__` leaves them. -/
structure NormalizedConfig where
  azimuth : List ℚ
  declination : List ℚ
  dc_kwp : List ℚ
  latitude : List ℚ
  longitude : List ℚ
  efficiency_factor : List ℚ
  damping_morning : List ℚ
  damping_evening : List ℚ
  deriving Repr, DecidableEq

/-- The `all(...)` generator over the five core parameters, in evaluation
order, with Python's short-circuiting: a scalar parameter yields `False`
and stops; a list parameter forces `len(self.dc_kwp)`, which raises
`TypeError` when `dc_kwp` is a scalar. -/
def checkCoreParams (dc : PyParam) : List PyParam → Except InitError Bool
  | [] => .ok true
  | p :: rest =>
      match p with
      | .scalar _ => .ok false
      | .plist xs =>
          match dc with
          | .scalar _ => .error .typeError
          | .plist dcs =>
              if xs.length = dcs.length then checkCoreParams dc rest
              else .ok false

/-- `test_param_len`: a list must match the length of `dc_kwp`, a scalar is
broadcast (`[attr] * len(other_attr)`). -/
def test_param_len (p : PyParam) (other : List ℚ) : Except InitError (List ℚ) :=
  match p with
  | .plist xs =>
      if xs.length = other.length then .ok xs else .error .configError
  | .scalar x => .ok (List.replicate other.length x)

/-- `__post_init__` (validation part): core five parameters all-lists-or-
all-wrapped, then `efficiency_factor` / `damping_morning` /
`damping_evening` validated against `dc_kwp` and broadcast when scalar. -/
def post_init (c : RawConfig) : Except InitError NormalizedConfig := do
  let core := [c.azimuth, c.declination, c.dc_kwp, c.latitude, c.longitude]
  let coreOk : Bool × List ℚ × List ℚ × List ℚ × List ℚ × List ℚ ←
    if core.any PyParam.isList then do
      let ok ← checkCoreParams c.dc_kwp core
      if ok then
        pure (true, c.azimuth.toList, c.declination.toList, c.dc_kwp.toList,
              c.latitude.toList, c.longitude.toList)
      else .error .configError
    else
      pure (true, c.azimuth.toList, c.declination.toList, c.dc_kwp.toList,
            c.latitude.toList, c.longitude.toList)
  let (_, az, dec, dcs, lat, lon) := coreOk
  let eff ← test_param_len c.efficiency_factor dcs
  let dm ← test_param_len c.damping_morning dcs
  let de ← test_param_len c.damping_evening dcs
  pure { azimuth := az, declination := dec, dc_kwp := dcs, latitude := lat
       , longitude := lon, efficiency_factor := eff, damping_morning := dm
       , damping_evening := de }

/-- The daily mean cloud cover as the spec phrases it: arithmetic mean of
the cloud samples whose own date is `d`, with the slice-based fallback when
no sample falls on `d`.  Stated separately from `dailyAvgCover` (which
embeds the incremental grouping of the code) so the two can be compared. -/
def specDailyMean (ctimes : List ℤ) (data : List ℚ) (nowDate d : ℤ) : ℚ :=
  if (ctimes.zip data).filter (fun p => dateOf p.1 = d) = [] then
    daySliceAvg data nowDate d
  else (((ctimes.zip data).filter (fun p => dateOf p.1 = d)).map Prod.snd).sum
    / ((((ctimes.zip data).filter (fun p => dateOf p.1 = d)).length : ℚ))

/-- A coordinator state in which a previous correction pass left a
non-zero adjustment percentage. -/
def staleState : CoordinatorState :=
  { estimate := { watts := [(0, 100)], wh_period := [(0, 100)], wh_days := [(0, 100)] }
  , adjustment_stats :=
      some { average_cloud_cover := 50, total_energy_before := 100
           , total_energy_after := 70, adjustment_percentage := -30 } }

/-- A constructor argument set in which every field supplied as a list has
the same length (2) while `declination` is a scalar. -/
def mixedScalarConfig : RawConfig :=
  { azimuth := .plist [0, 0], declination := .scalar 0
  , dc_kwp := .plist [1, 1], latitude := .plist [0, 0]
  , longitude := .plist [0, 0], efficiency_factor := .scalar 1
  , damping_morning := .scalar 0, damping_evening := .scalar 0 }

/-! ## Lemmas about the dict machinery -/

theorem lookupD_addToDict (m : List (ℤ × ℚ)) (k : ℤ) (v : ℚ) (k' : ℤ) :
    lookupD (addToDict m k v) k' 0
      = lookupD m k' 0 + (if k' = k then v else 0) := by
  induction m with
  | nil =>
      simp only [addToDict, lookupD]
      by_cases h : k = k'
      · subst h; simp
      · rw [if_neg h, if_neg (fun hh => h hh.symm)]; simp
  | cons p rest ih =>
      obtain ⟨k0, v0⟩ := p
      simp only [addToDict]
      by_cases h0 : k0 = k
      · subst h0
        simp only [if_pos rfl, lookupD]
        by_cases h1 : k0 = k'
        · subst h1
          rw [if_pos rfl, if_pos rfl, if_pos rfl]
        · rw [if_neg h1, if_neg h1, if_neg (fun hh => h1 hh.symm)]
          simp
      · simp only [if_neg h0, lookupD]
        by_cases h1 : k0 = k'
        · subst h1
          rw [if_pos rfl, if_pos rfl, if_neg (fun hh => h0 hh)]
          simp
        · rw [if_neg h1, if_neg h1, ih]

theorem lookupD_foldl_addToDict {α : Type} (key : α → ℤ) (val : α → ℚ)
    (l : List α) (m : List (ℤ × ℚ)) (k : ℤ) :
    lookupD (l.foldl (fun m a => addToDict m (key a) (val a)) m) k 0
      = lookupD m k 0 + ((l.filter (fun a => key a = k)).map val).sum := by
  induction l generalizing m with
  | nil => simp
  | cons a rest ih =>
      simp only [List.foldl_cons]
      rw [ih, lookupD_addToDict, List.filter_cons]
      by_cases h : key a = k
      · have h' : k = key a := h.symm
        simp [h, if_pos h']
        ring
      · have h' : ¬ k = key a := fun hh => h hh.symm
        simp [h, if_neg h']

/-- The accumulated value at a key equals the sum of the values of the
items keyed to it. -/
theorem lookupD_accumDict {α : Type} (key : α → ℤ) (val : α → ℚ)
    (l : List α) (k : ℤ) :
    lookupD (accumDict key val l) k 0
      = ((l.filter (fun a => key a = k)).map val).sum := by
  simpa [accumDict, lookupD] using lookupD_foldl_addToDict key val l [] k

theorem mem_dictKeys_addToDict (m : List (ℤ × ℚ)) (k : ℤ) (v : ℚ) (k' : ℤ) :
    k' ∈ dictKeys (addToDict m k v) ↔ k' ∈ dictKeys m ∨ k' = k := by
  induction m with
  | nil =>
      simp only [addToDict, dictKeys, List.map_cons, List.map_nil,
        List.mem_singleton, List.not_mem_nil, false_or]
  | cons p rest ih =>
      obtain ⟨k0, v0⟩ := p
      simp only [dictKeys] at ih ⊢
      by_cases h0 : k0 = k
      · subst h0
        rw [show addToDict ((k0, v0) :: rest) k0 v = (k0, v0 + v) :: rest
          from by simp [addToDict]]
        simp only [List.map_cons, List.mem_cons]
        tauto
      · rw [show addToDict ((k0, v0) :: rest) k v
              = (k0, v0) :: addToDict rest k v
          from by simp [addToDict, h0]]
        simp only [List.map_cons, List.mem_cons]
        rw [ih]
        tauto

theorem mem_dictKeys_foldl_addToDict {α : Type} (key : α → ℤ) (val : α → ℚ)
    (l : List α) (m : List (ℤ × ℚ)) (k : ℤ) :
    k ∈ dictKeys (l.foldl (fun m a => addToDict m (key a) (val a)) m)
      ↔ k ∈ dictKeys m ∨ ∃ a ∈ l, key a = k := by
  induction l generalizing m with
  | nil => simp
  | cons a rest ih =>
      simp only [List.foldl_cons]
      rw [ih, mem_dictKeys_addToDict]
      constructor
      · rintro ((h | h) | h)
        · exact Or.inl h
        · exact Or.inr ⟨a, List.mem_cons_self a rest, h.symm⟩
        · obtain ⟨b, hb, hk⟩ := h
          exact Or.inr ⟨b, List.mem_cons_of_mem a hb, hk⟩
      · rintro (h | ⟨b, hb, hk⟩)
        · exact Or.inl (Or.inl h)
        · rcases List.mem_cons.mp hb with hb' | hb'
          · subst hb'; exact Or.inl (Or.inr hk.symm)
          · exact Or.inr ⟨b, hb', hk⟩

/-- A key appears in an accumulated dict exactly when some item maps to it. -/
theorem mem_dictKeys_accumDict {α : Type} (key : α → ℤ) (val : α → ℚ)
    (l : List α) (k : ℤ) :
    k ∈ dictKeys (accumDict key val l) ↔ ∃ a ∈ l, key a = k := by
  simpa [accumDict, dictKeys] using mem_dictKeys_foldl_addToDict key val l [] k

theorem dictKeys_addToDict_nodup (m : List (ℤ × ℚ)) (k : ℤ) (v : ℚ)
    (h : (dictKeys m).Nodup) : (dictKeys (addToDict m k v)).Nodup := by
  induction m with
  | nil => simp [addToDict, dictKeys]
  | cons p rest ih =>
      obtain ⟨k0, v0⟩ := p
      by_cases h0 : k0 = k
      · subst h0; simpa [addToDict, dictKeys] using h
      · simp only [dictKeys, List.map_cons, List.nodup_cons] at h
        simp only [addToDict, if_neg h0, dictKeys, List.map_cons,
          List.nodup_cons]
        refine ⟨?_, ih h.2⟩
        intro hc
        rcases (mem_dictKeys_addToDict rest k v k0).mp hc with hc' | hc'
        · exact h.1 hc'
        · exact h0 hc'

theorem dictKeys_accumDict_nodup {α : Type} (key : α → ℤ) (val : α → ℚ)
    (l : List α) : (dictKeys (accumDict key val l)).Nodup := by
  have main : ∀ (l : List α) (m : List (ℤ × ℚ)), (dictKeys m).Nodup →
      (dictKeys (l.foldl (fun m a => addToDict m (key a) (val a)) m)).Nodup := by
    intro l
    induction l with
    | nil => intro m hm; simpa using hm
    | cons a rest ih =>
        intro m hm
        exact ih _ (dictKeys_addToDict_nodup m (key a) (val a) hm)
  exact main l [] (by simp [dictKeys])

/-- In a dict with distinct keys, membership of a pair determines the
lookup. -/
theorem lookupD_of_mem (m : List (ℤ × ℚ)) (k : ℤ) (v : ℚ)
    (hnd : (dictKeys m).Nodup) (hm : (k, v) ∈ m) : lookupD m k 0 = v := by
  induction m with
  | nil => simp at hm
  | cons p rest ih =>
      obtain ⟨k0, v0⟩ := p
      simp only [dictKeys, List.map_cons, List.nodup_cons] at hnd
      rcases List.mem_cons.mp hm with h | h
      · cases h
        simp [lookupD]
      · have hk : k0 ≠ k := by
          intro hc; subst hc
          exact hnd.1 (List.mem_map.mpr ⟨(k0, v), h, rfl⟩)
        have := ih (by simpa [dictKeys] using hnd.2) h
        simpa [lookupD, hk] using this

/-- Sum of constant ones equals the length. -/
theorem sum_map_one {α : Type} (l : List α) :
    (l.map (fun _ => (1 : ℚ))).sum = (l.length : ℚ) := by
  induction l with
  | nil => simp
  | cons a rest ih => simp [ih]; ring

/-! ## Range lemmas for the cloud-cover lookups -/

/-- Every entry of `dictInsert m k v` comes from `m` or carries value `v`. -/
theorem mem_dictInsert (m : List (ℤ × ℚ)) (k : ℤ) (v : ℚ) (p : ℤ × ℚ)
    (hp : p ∈ dictInsert m k v) : p ∈ m ∨ p.2 = v := by
  induction m with
  | nil =>
      simp only [dictInsert, List.mem_singleton] at hp
      subst hp; exact Or.inr rfl
  | cons q rest ih =>
      obtain ⟨k0, v0⟩ := q
      by_cases h0 : k0 = k
      · rw [show dictInsert ((k0, v0) :: rest) k v = (k0, v) :: rest
          from by simp [dictInsert, h0]] at hp
        rcases List.mem_cons.mp hp with h | h
        · subst h; exact Or.inr rfl
        · exact Or.inl (List.mem_cons_of_mem _ h)
      · rw [show dictInsert ((k0, v0) :: rest) k v
              = (k0, v0) :: dictInsert rest k v
          from by simp [dictInsert, h0]] at hp
        rcases List.mem_cons.mp hp with h | h
        · subst h; exact Or.inl (List.mem_cons_self _ _)
        · rcases ih h with h' | h'
          · exact Or.inl (List.mem_cons_of_mem _ h')
          · exact Or.inr h'

/-- Every value stored in `cloud_cover_dict` is one of the raw cover
values. -/
theorem buildCloudDict_values (times : List ℤ) (data : List ℚ) (p : ℤ × ℚ)
    (hp : p ∈ buildCloudDict times data) : p.2 ∈ data := by
  have main : ∀ (l : List (ℤ × ℚ)) (m : List (ℤ × ℚ)),
      (∀ q ∈ m, (q : ℤ × ℚ).2 ∈ data) → (∀ q ∈ l, (q : ℤ × ℚ).2 ∈ data) →
      ∀ q ∈ l.foldl (fun m p => dictInsert m p.1 p.2) m, (q : ℤ × ℚ).2 ∈ data := by
    intro l
    induction l with
    | nil => intro m hm _ q hq; exact hm q hq
    | cons a rest ih =>
        intro m hm hl q hq
        refine ih (dictInsert m a.1 a.2) ?_ (fun r hr => hl r (List.mem_cons_of_mem _ hr)) q hq
        intro r hr
        rcases mem_dictInsert m a.1 a.2 r hr with h | h
        · exact hm r h
        · rw [h]; exact hl a (List.mem_cons_self _ _)
  refine main (times.zip data) [] (by simp) ?_ p hp
  intro q hq
  exact (List.of_mem_zip hq).2

/-- The nearest-timestamp scan returns `none` or an entry of the dict. -/
theorem findClosest_mem (m : List (ℤ × ℚ)) (t : ℤ) :
    (findClosest m t).1 = none ∨
      ∃ p ∈ m, (findClosest m t).1 = some p := by
  have main : ∀ (l : List (ℤ × ℚ)) (acc : Option (ℤ × ℚ) × ℤ),
      (acc.1 = none ∨ ∃ p ∈ m, acc.1 = some p) → (∀ q ∈ l, q ∈ m) →
      ((l.foldl (fun acc p =>
          if |t - p.1| < acc.2 then (some p, |t - p.1|) else acc) acc).1 = none ∨
        ∃ p ∈ m, (l.foldl (fun acc p =>
          if |t - p.1| < acc.2 then (some p, |t - p.1|) else acc) acc).1 = some p) := by
    intro l
    induction l with
    | nil => intro acc hacc _; exact hacc
    | cons a rest ih =>
        intro acc hacc hl
        simp only [List.foldl_cons]
        by_cases h : |t - a.1| < acc.2
        · rw [if_pos h]
          refine ih _ (Or.inr ⟨a, hl a (List.mem_cons_self _ _), rfl⟩) ?_
          exact fun q hq => hl q (List.mem_cons_of_mem _ hq)
        · rw [if_neg h]
          exact ih acc hacc (fun q hq => hl q (List.mem_cons_of_mem _ hq))
  exact main m (none, 24 * 60) (Or.inl rfl) (fun q hq => hq)

/-- The index-based fallback percentage is `0` or one of the raw values. -/
theorem fallbackPercent_mem (data : List ℚ) (nowDate t : ℤ) :
    fallbackPercent data nowDate t = 0 ∨ fallbackPercent data nowDate t ∈ data := by
  unfold fallbackPercent
  by_cases h : 0 ≤ hour_index nowDate t ∧ hour_index nowDate t < (data.length : ℤ)
  · rw [if_pos h]
    right
    have hlt : (hour_index nowDate t).toNat < data.length := by
      omega
    rw [List.getD_eq_getElem data 0 hlt]
    exact List.getElem_mem hlt
  · rw [if_neg h]; exact Or.inl rfl

/-- The percentage the `watts` loop uses is `0` or one of the raw values. -/
theorem wattsCloudPercent_mem (ctimes : List ℤ) (data : List ℚ) (nowDate t : ℤ) :
    wattsCloudPercent ctimes data nowDate t = 0 ∨
      wattsCloudPercent ctimes data nowDate t ∈ data := by
  unfold wattsCloudPercent
  by_cases hd : buildCloudDict ctimes data = []
  · rw [if_pos hd]; exact fallbackPercent_mem data nowDate t
  · rw [if_neg hd]
    rcases hfc : findClosest (buildCloudDict ctimes data) t with ⟨copt, diff⟩
    rcases copt with _ | p
    · exact fallbackPercent_mem data nowDate t
    · simp only
      by_cases hdiff : diff ≤ 2 * 60
      · rw [if_pos hdiff]
        right
        rcases findClosest_mem (buildCloudDict ctimes data) t with h | ⟨q, hq, hsome⟩
        · rw [hfc] at h; simp at h
        · rw [hfc] at hsome
          have hpq : p = q := by simpa using hsome
          rw [hpq]
          exact buildCloudDict_values ctimes data q hq
      · rw [if_neg hdiff]
        exact fallbackPercent_mem data nowDate t

/-- A percentage that is `0` or drawn from values in `[0, 100]` yields an
adjustment factor in `[0, 1]` for a coefficient in `[0, 1]`. -/
theorem adjustmentFactor_bounds (coeff percent : ℚ)
    (hp : 0 ≤ percent ∧ percent ≤ 100) (hc : 0 ≤ coeff ∧ coeff ≤ 1) :
    0 ≤ adjustmentFactor coeff percent ∧ adjustmentFactor coeff percent ≤ 1 := by
  unfold adjustmentFactor
  constructor
  · have h1 : percent / 100 ≤ 1 := by
      rw [div_le_one (by norm_num : (0:ℚ) < 100)]; exact hp.2
    have h2 : 0 ≤ percent / 100 := div_nonneg hp.1 (by norm_num)
    nlinarith [hc.1, hc.2]
  · have h2 : 0 ≤ percent / 100 := div_nonneg hp.1 (by norm_num)
    nlinarith [hc.1]

/-! ## Helper lemmas for the claim theorems -/

/-- Python `round` of a non-negative number is non-negative. -/
theorem pythonRound_nonneg (q : ℚ) (hq : 0 ≤ q) : 0 ≤ pythonRound q := by
  have hf : 0 ≤ ⌊q⌋ := Int.floor_nonneg.mpr hq
  show 0 ≤ (if q - (⌊q⌋ : ℚ) < 1 / 2 then ⌊q⌋
    else if 1 / 2 < q - (⌊q⌋ : ℚ) then ⌊q⌋ + 1
    else if 2 ∣ ⌊q⌋ then ⌊q⌋ else ⌊q⌋ + 1)
  split_ifs <;> omega

/-- Zeta-free form of `linear_damping`. -/
theorem linear_damping_eq (time start stop damping : ℚ) :
    linear_damping time start stop damping
      = ((time - start) / (stop - start)) * damping + (1 - damping) := by
  show (time - start) / (stop - start) * (1 - (1 - damping)) + (1 - damping)
    = ((time - start) / (stop - start)) * damping + (1 - damping)
  ring

/-- Zeta-free form of `calculate_damping_coefficient`. -/
theorem calculate_damping_coefficient_eq
    (time sunrise sunset dm de : ℚ) :
    calculate_damping_coefficient time sunrise sunset dm de =
      if sunrise ≤ time ∧ time ≤ sunrise + (sunset - sunrise) / 2 then
        linear_damping time sunrise (sunrise + (sunset - sunrise) / 2) dm
      else if sunrise + (sunset - sunrise) / 2 ≤ time ∧ time ≤ sunset then
        linear_damping time sunset (sunrise + (sunset - sunrise) / 2) de
      else 1 := rfl

/-! ## Claim theorems -/

/-- C6: for every irradiance sample, ambient temperature and damped
efficiency, `gen_power` computes exactly
`round(max(0, P_dc * (G/G_STC) * (1 + alpha*(T_cell - T_STC)) * eff))` with
`T_cell = T_amb + G * k_ross` for the fixed Ross coefficient, and the
result is a non-negative whole number of watts (floored at zero before
rounding). -/
theorem C6_gen_power_formula (dc_wp gti t_amb eff : ℚ) :
    gen_power dc_wp gti t_amb eff
        = pythonRound (max 0 (specPowerFormula dc_wp gti t_amb eff)) ∧
      0 ≤ gen_power dc_wp gti t_amb eff := by
  have hform : gen_power dc_wp gti t_amb eff
      = pythonRound (max 0 (specPowerFormula dc_wp gti t_amb eff)) := rfl
  refine ⟨hform, ?_⟩
  rw [hform]
  exact pythonRound_nonneg _ (le_max_left 0 _)

/-- C10: when the fallback hour index is out of the bounds of the raw
cloud-cover list, the cloud cover defaults to `0`, the adjustment factor is
exactly `1`, and the value at that timestamp is left unchanged (the list is
accessed only under the bounds guard). -/
theorem C10_fallback_out_of_bounds (data : List ℚ) (nowDate t : ℤ)
    (coeff wh : ℚ)
    (h : hour_index nowDate t < 0 ∨ (data.length : ℤ) ≤ hour_index nowDate t) :
    fallbackPercent data nowDate t = 0 ∧
    adjustmentFactor coeff (fallbackPercent data nowDate t) = 1 ∧
    wh * adjustmentFactor coeff (fallbackPercent data nowDate t) = wh := by
  have h0 : fallbackPercent data nowDate t = 0 := by
    unfold fallbackPercent
    rw [if_neg]
    rintro ⟨h1, h2⟩
    rcases h with h' | h' <;> omega
  refine ⟨h0, ?_, ?_⟩
  · rw [h0]; unfold adjustmentFactor; norm_num
  · rw [h0]; unfold adjustmentFactor; norm_num

/-- C10 witness: a concrete timestamp one day before "today" with a
one-day cloud list has hour index `-16 < 0` and is left unchanged. -/
theorem C10_fallback_out_of_bounds_witness :
    (hour_index 1 480 < 0 ∨ (([(50:ℚ)]).length : ℤ) ≤ hour_index 1 480) ∧
    fallbackPercent [(50:ℚ)] 1 480 = 0 ∧
    adjustmentFactor (7/10) (fallbackPercent [(50:ℚ)] 1 480) = 1 ∧
    (123 : ℚ) * adjustmentFactor (7/10) (fallbackPercent [(50:ℚ)] 1 480) = 123 :=
  ⟨Or.inl (by decide), C10_fallback_out_of_bounds [(50:ℚ)] 1 480 (7/10) 123
      (Or.inl (by decide))⟩

/-- C4: in the aggregate built by `estimate()` before cloud correction,
every `wh_days` entry equals exactly the sum of the `wh_period` values
whose hour falls on that date. -/
theorem C4_wh_days_eq_sum_wh_period (w_avg : List (ℤ × ℚ)) (d : ℤ) (s : ℚ)
    (h : (d, s) ∈ whDaysOf (whPeriodOf w_avg)) :
    s = (((whPeriodOf w_avg).filter (fun p => dateOf p.1 = d)).map Prod.snd).sum := by
  have hnd : (dictKeys (whDaysOf (whPeriodOf w_avg))).Nodup := by
    unfold whDaysOf
    exact dictKeys_accumDict_nodup _ _ _
  have hl := lookupD_of_mem _ d s hnd h
  rw [← hl]
  unfold whDaysOf
  rw [lookupD_accumDict]

/-- C4 witness: two quarter-hour samples in the same hour average to 200,
and the daily total equals the (one-element) per-hour sum. -/
theorem C4_wh_days_eq_sum_wh_period_witness :
    ((0:ℤ), (200:ℚ)) ∈ whDaysOf (whPeriodOf [((0:ℤ), (100:ℚ)), (15, 300)]) ∧
    (200:ℚ) = (((whPeriodOf [((0:ℤ), (100:ℚ)), (15, 300)]).filter
        (fun p => dateOf p.1 = 0)).map Prod.snd).sum := by
  have hmem : ((0:ℤ), (200:ℚ)) ∈ whDaysOf (whPeriodOf [((0:ℤ), (100:ℚ)), (15, 300)]) := by
    have hwp : whPeriodOf [((0:ℤ), (100:ℚ)), (15, 300)] = [(0, 200)] := by
      norm_num [whPeriodOf, whPeriodSums, whPeriodCounts, accumDict, addToDict,
        lookupD, hourStart]
    rw [show whDaysOf (whPeriodOf [((0:ℤ), (100:ℚ)), (15, 300)])
        = whDaysOf [(0, 200)] from by rw [hwp]]
    norm_num [whDaysOf, accumDict, addToDict, dateOf, minutesPerDay]
  exact ⟨hmem, C4_wh_days_eq_sum_wh_period [((0:ℤ), (100:ℚ)), (15, 300)] 0 200 hmem⟩

/-- C9: every `wh_period` value produced before cloud correction is at
most `ac_kwp * 1000`, because it is the arithmetic mean of already-clamped
averaged-power samples. -/
theorem C9_wh_period_le_ac_ceiling (w_avg : List (ℤ × ℚ)) (ac_kwp : ℚ)
    (t : ℤ) (v : ℚ)
    (h : (t, v) ∈ whPeriodOf (clampWatts (ac_kwp * 1000) w_avg)) :
    v ≤ ac_kwp * 1000 := by
  set B := ac_kwp * 1000 with hB
  set l := clampWatts B w_avg with hl
  obtain ⟨p, hp, heq⟩ := List.mem_map.mp h
  cases heq
  -- the summed value at this hour
  have hndS : (dictKeys (whPeriodSums l)).Nodup := by
    unfold whPeriodSums
    exact dictKeys_accumDict_nodup _ _ _
  have hval : p.2 = lookupD (whPeriodSums l) p.1 0 :=
    (lookupD_of_mem _ p.1 p.2 hndS (by simpa using hp)).symm
  have hsum : lookupD (whPeriodSums l) p.1 0
      = ((l.filter (fun a => hourStart a.1 = p.1)).map Prod.snd).sum := by
    unfold whPeriodSums
    rw [lookupD_accumDict]
  have hcnt : lookupD (whPeriodCounts l) p.1 0
      = ((l.filter (fun a => hourStart a.1 = p.1)).length : ℚ) := by
    unfold whPeriodCounts
    rw [lookupD_accumDict, sum_map_one]
  -- the hour has at least one sample
  have hkey : p.1 ∈ dictKeys (whPeriodSums l) :=
    List.mem_map.mpr ⟨p, hp, rfl⟩
  have hex : ∃ a ∈ l, hourStart a.1 = p.1 := by
    unfold whPeriodSums at hkey
    exact (mem_dictKeys_accumDict _ _ _ _).mp hkey
  have hne : l.filter (fun a => hourStart a.1 = p.1) ≠ [] := by
    obtain ⟨a, ha, hka⟩ := hex
    intro hcontra
    have : a ∈ l.filter (fun a => hourStart a.1 = p.1) :=
      List.mem_filter.mpr ⟨ha, by simpa using hka⟩
    rw [hcontra] at this
    simp at this
  have hlenpos : 0 < ((l.filter (fun a => hourStart a.1 = p.1)).length : ℚ) := by
    have := List.length_pos.mpr hne
    exact_mod_cast this
  -- every filtered value is clamped below B
  have hbound : ∀ x ∈ (l.filter (fun a => hourStart a.1 = p.1)).map Prod.snd, x ≤ B := by
    intro x hx
    obtain ⟨a, ha, hax⟩ := List.mem_map.mp hx
    have hal : a ∈ l := (List.mem_filter.mp ha).1
    rw [hl] at hal
    obtain ⟨q, _, hq⟩ := List.mem_map.mp hal
    rw [← hax, ← hq]
    exact min_le_right _ _
  have hsum_le : ((l.filter (fun a => hourStart a.1 = p.1)).map Prod.snd).sum
      ≤ ((l.filter (fun a => hourStart a.1 = p.1)).length : ℚ) * B := by
    have := List.sum_le_card_nsmul
      ((l.filter (fun a => hourStart a.1 = p.1)).map Prod.snd) B hbound
    simpa [nsmul_eq_mul] using this
  -- divide
  show p.2 / lookupD (whPeriodCounts l) p.1 0 ≤ B
  rw [hval, hsum, hcnt, div_le_iff₀ hlenpos, mul_comm]
  exact hsum_le

/-- C9 witness: two samples clamped to `ac_kwp = 1` (1000 W) average to
at most 1000. -/
theorem C9_wh_period_le_ac_ceiling_witness :
    ((0:ℤ), (1000:ℚ)) ∈ whPeriodOf (clampWatts ((1:ℚ) * 1000)
      [((0:ℤ), (1500:ℚ)), (15, 1200)]) ∧
    (1000:ℚ) ≤ (1:ℚ) * 1000 := by
  have hmem : ((0:ℤ), (1000:ℚ)) ∈ whPeriodOf (clampWatts ((1:ℚ) * 1000)
      [((0:ℤ), (1500:ℚ)), (15, 1200)]) := by
    have hcl : clampWatts ((1:ℚ) * 1000) [((0:ℤ), (1500:ℚ)), (15, 1200)]
        = [(0, 1000), (15, 1000)] := by
      norm_num [clampWatts]
    rw [show whPeriodOf (clampWatts ((1:ℚ) * 1000) [((0:ℤ), (1500:ℚ)), (15, 1200)])
        = whPeriodOf [(0, 1000), (15, 1000)] from by rw [hcl]]
    norm_num [whPeriodOf, whPeriodSums, whPeriodCounts, accumDict, addToDict,
      lookupD, hourStart]
  exact ⟨hmem, C9_wh_period_le_ac_ceiling [((0:ℤ), (1500:ℚ)), (15, 1200)] 1 0 1000 hmem⟩

/-- C5 counterexample: with `sunrise = 0 < 4 = sunset` and damping factors
`0` (allowed, in `[0,1]`), the coefficient is `1` at two distinct times of
the morning half, so it is not strictly monotonic there as claimed. -/
theorem C5_counterexample :
    (0:ℚ) < 4 ∧ (0:ℚ) ≤ 0 ∧ (0:ℚ) ≤ 1 ∧
    (0:ℚ) ≤ 0 ∧ (0:ℚ) < 1 ∧ (1:ℚ) ≤ 0 + (4 - 0) / 2 ∧
    calculate_damping_coefficient 0 0 4 0 0
      = calculate_damping_coefficient 1 0 4 0 0 := by
  refine ⟨by norm_num, le_refl 0, by norm_num, le_refl 0, by norm_num, by norm_num, ?_⟩
  rw [calculate_damping_coefficient_eq, calculate_damping_coefficient_eq]
  rw [if_pos (by norm_num), if_pos (by norm_num)]
  rw [linear_damping_eq, linear_damping_eq]
  norm_num

/-- C5 (amended): for `sunrise < sunset` and damping factors in `[0,1]`,
the damping coefficient equals `1 - damping_morning` at sunrise, `1` at the
solar-noon midpoint, `1 - damping_evening` at sunset, is strictly
increasing on the morning half and strictly decreasing on the evening half
whenever the corresponding damping factor is strictly positive (it is
constant `1` on a half whose damping factor is `0`), and equals `1`
outside the sunrise–sunset window. -/
theorem C5_damping_coefficient_shape (sunrise sunset dm de : ℚ)
    (hss : sunrise < sunset) (hdm : 0 ≤ dm ∧ dm ≤ 1) (hde : 0 ≤ de ∧ de ≤ 1) :
    calculate_damping_coefficient sunrise sunrise sunset dm de = 1 - dm ∧
    calculate_damping_coefficient (sunrise + (sunset - sunrise) / 2)
      sunrise sunset dm de = 1 ∧
    calculate_damping_coefficient sunset sunrise sunset dm de = 1 - de ∧
    (∀ t1 t2, sunrise ≤ t1 → t1 < t2 → t2 ≤ sunrise + (sunset - sunrise) / 2 →
      0 < dm →
      calculate_damping_coefficient t1 sunrise sunset dm de
        < calculate_damping_coefficient t2 sunrise sunset dm de) ∧
    (∀ t1 t2, sunrise + (sunset - sunrise) / 2 ≤ t1 → t1 < t2 → t2 ≤ sunset →
      0 < de →
      calculate_damping_coefficient t2 sunrise sunset dm de
        < calculate_damping_coefficient t1 sunrise sunset dm de) ∧
    (∀ t, t < sunrise ∨ sunset < t →
      calculate_damping_coefficient t sunrise sunset dm de = 1) := by
  have hhalf : 0 < (sunset - sunrise) / 2 := by linarith
  have hmidgt : sunrise < sunrise + (sunset - sunrise) / 2 := by linarith
  have hmidlt : sunrise + (sunset - sunrise) / 2 < sunset := by linarith
  have hHpos : 0 < (sunrise + (sunset - sunrise) / 2) - sunrise := by linarith
  have hHne : (sunrise + (sunset - sunrise) / 2) - sunrise ≠ 0 := ne_of_gt hHpos
  have hDneg : (sunrise + (sunset - sunrise) / 2) - sunset < 0 := by linarith
  have hDne : (sunrise + (sunset - sunrise) / 2) - sunset ≠ 0 := ne_of_lt hDneg
  refine ⟨?_, ?_, ?_, ?_, ?_, ?_⟩
  · -- at sunrise
    rw [calculate_damping_coefficient_eq, if_pos ⟨le_refl _, le_of_lt hmidgt⟩,
      linear_damping_eq]
    simp
  · -- at the midpoint
    rw [calculate_damping_coefficient_eq, if_pos ⟨le_of_lt hmidgt, le_refl _⟩,
      linear_damping_eq, div_self hHne]
    ring
  · -- at sunset
    rw [calculate_damping_coefficient_eq,
      if_neg (by rintro ⟨_, h2⟩; linarith),
      if_pos ⟨le_of_lt hmidlt, le_refl _⟩, linear_damping_eq]
    simp
  · -- strictly increasing on the morning half (when dm > 0)
    intro t1 t2 h1 h12 h2 hdm0
    rw [calculate_damping_coefficient_eq,
      if_pos ⟨h1, le_of_lt (lt_of_lt_of_le h12 h2)⟩,
      calculate_damping_coefficient_eq, if_pos ⟨by linarith, h2⟩,
      linear_damping_eq, linear_damping_eq]
    have hq : (t1 - sunrise) / ((sunrise + (sunset - sunrise) / 2) - sunrise)
        < (t2 - sunrise) / ((sunrise + (sunset - sunrise) / 2) - sunrise) := by
      apply div_lt_div_of_pos_right ?_ hHpos
      linarith
    have := mul_lt_mul_of_pos_right hq hdm0
    linarith
  · -- strictly decreasing on the evening half (when de > 0)
    intro t1 t2 h1 h12 h2 hde0
    have hv2 : calculate_damping_coefficient t2 sunrise sunset dm de
        = ((t2 - sunset) / ((sunrise + (sunset - sunrise) / 2) - sunset)) * de
          + (1 - de) := by
      rw [calculate_damping_coefficient_eq,
        if_neg (by rintro ⟨_, hle⟩; linarith),
        if_pos ⟨by linarith, h2⟩, linear_damping_eq]
    have hq : (t2 - sunset) / ((sunrise + (sunset - sunrise) / 2) - sunset)
        < (t1 - sunset) / ((sunrise + (sunset - sunrise) / 2) - sunset) := by
      apply div_lt_div_of_neg_of_lt hDneg
      linarith
    rcases eq_or_lt_of_le h1 with heq | hlt1
    · -- t1 is exactly the midpoint: the morning branch fires and yields 1
      rw [hv2, ← heq, calculate_damping_coefficient_eq,
        if_pos ⟨le_of_lt hmidgt, le_refl _⟩, linear_damping_eq, div_self hHne]
      have hlt : (t2 - sunset) / ((sunrise + (sunset - sunrise) / 2) - sunset) < 1 := by
        have : (t1 - sunset) / ((sunrise + (sunset - sunrise) / 2) - sunset) = 1 := by
          rw [← heq]; exact div_self hDne
        linarith [hq, this]
      nlinarith
    · -- both strictly inside the evening half
      have hv1 : calculate_damping_coefficient t1 sunrise sunset dm de
          = ((t1 - sunset) / ((sunrise + (sunset - sunrise) / 2) - sunset)) * de
            + (1 - de) := by
        rw [calculate_damping_coefficient_eq,
          if_neg (by rintro ⟨_, hle⟩; linarith),
          if_pos ⟨le_of_lt hlt1, by linarith⟩, linear_damping_eq]
      rw [hv1, hv2]
      have := mul_lt_mul_of_pos_right hq hde0
      linarith
  · -- outside the window
    intro t ht
    rw [calculate_damping_coefficient_eq]
    rcases ht with ht | ht
    · rw [if_neg (by rintro ⟨h1, _⟩; linarith),
        if_neg (by rintro ⟨h1, _⟩; linarith)]
    · rw [if_neg (by rintro ⟨_, h2⟩; linarith),
        if_neg (by rintro ⟨_, h2⟩; linarith)]

/-- C5 witness: the amended theorem applied at `sunrise = 0`,
`sunset = 4`, `dm = de = 1/2`. -/
theorem C5_damping_coefficient_shape_witness :
    calculate_damping_coefficient 0 0 4 (1/2) (1/2) = 1 - 1/2 ∧
    calculate_damping_coefficient (0 + (4 - 0) / 2) 0 4 (1/2) (1/2) = 1 ∧
    calculate_damping_coefficient 4 0 4 (1/2) (1/2) = 1 - 1/2 ∧
    calculate_damping_coefficient 1 0 4 (1/2) (1/2)
      < calculate_damping_coefficient 2 0 4 (1/2) (1/2) ∧
    calculate_damping_coefficient 4 0 4 (1/2) (1/2)
      < calculate_damping_coefficient 3 0 4 (1/2) (1/2) ∧
    calculate_damping_coefficient 5 0 4 (1/2) (1/2) = 1 := by
  have h := C5_damping_coefficient_shape 0 4 (1/2) (1/2) (by norm_num)
    ⟨by norm_num, by norm_num⟩ ⟨by norm_num, by norm_num⟩
  exact ⟨h.1, h.2.1, h.2.2.1,
    h.2.2.2.1 1 2 (by norm_num) (by norm_num) (by norm_num) (by norm_num),
    h.2.2.2.2.1 3 4 (by norm_num) (by norm_num) (by norm_num) (by norm_num),
    h.2.2.2.2.2 5 (Or.inr (by norm_num))⟩

/-- C3: with `ac_kwp ≥ 0`, cloud covers in `[0,100]` and a correction
coefficient in `[0,1]`, every clamped instantaneous power value is at most
`ac_kwp * 1000`, and the bound persists through the cloud-correction
`watts` pass. -/
theorem C3_watts_le_ac_ceiling (ctimes : List ℤ) (data : List ℚ)
    (nowDate : ℤ) (coeff ac_kwp : ℚ) (ws : List (ℤ × ℚ))
    (hdata : ∀ c ∈ data, 0 ≤ c ∧ c ≤ 100)
    (hcoeff : 0 ≤ coeff ∧ coeff ≤ 1)
    (hac : 0 ≤ ac_kwp)
    (hws : ∀ p ∈ ws, 0 ≤ (p : ℤ × ℚ).2) :
    (∀ p ∈ clampWatts (ac_kwp * 1000) ws, (p : ℤ × ℚ).2 ≤ ac_kwp * 1000) ∧
    (∀ p ∈ wattsPass ctimes data nowDate coeff (clampWatts (ac_kwp * 1000) ws),
      (p : ℤ × ℚ).2 ≤ ac_kwp * 1000) := by
  have hclamp : ∀ p ∈ clampWatts (ac_kwp * 1000) ws,
      (p : ℤ × ℚ).2 ≤ ac_kwp * 1000 := by
    intro p hp
    obtain ⟨q, _, hq⟩ := List.mem_map.mp hp
    rw [← hq]
    exact min_le_right _ _
  refine ⟨hclamp, ?_⟩
  intro p hp
  obtain ⟨q, hq, hpq⟩ := List.mem_map.mp hp
  rw [← hpq]
  have hq2nn : 0 ≤ q.2 := by
    obtain ⟨r, hr, hrq⟩ := List.mem_map.mp hq
    rw [← hrq]
    exact le_min (hws r hr) (by positivity)
  have hq2le : q.2 ≤ ac_kwp * 1000 := hclamp q hq
  have hperc : 0 ≤ wattsCloudPercent ctimes data nowDate q.1 ∧
      wattsCloudPercent ctimes data nowDate q.1 ≤ 100 := by
    rcases wattsCloudPercent_mem ctimes data nowDate q.1 with h | h
    · rw [h]; norm_num
    · exact hdata _ h
  have hfac := adjustmentFactor_bounds coeff
    (wattsCloudPercent ctimes data nowDate q.1) hperc hcoeff
  calc q.2 * adjustmentFactor coeff (wattsCloudPercent ctimes data nowDate q.1)
      ≤ q.2 * 1 := mul_le_mul_of_nonneg_left hfac.2 hq2nn
    _ = q.2 := mul_one _
    _ ≤ ac_kwp * 1000 := hq2le

/-- C3 witness: one clamped sample flowing through a correction with 55%
cover stays below the AC ceiling. -/
theorem C3_watts_le_ac_ceiling_witness :
    (∀ p ∈ clampWatts ((1:ℚ) * 1000) [((0:ℤ), (1500:ℚ))],
      (p : ℤ × ℚ).2 ≤ (1:ℚ) * 1000) ∧
    (∀ p ∈ wattsPass [0] [55] 0 (7/10) (clampWatts ((1:ℚ) * 1000)
        [((0:ℤ), (1500:ℚ))]), (p : ℤ × ℚ).2 ≤ (1:ℚ) * 1000) :=
  C3_watts_le_ac_ceiling [0] [55] 0 (7/10) 1 [((0:ℤ), (1500:ℚ))]
    (by intro c hc; rw [List.mem_singleton.mp hc]; norm_num)
    ⟨by norm_num, by norm_num⟩ (by norm_num)
    (by intro p hp; rw [List.mem_singleton.mp hp]; norm_num)

/-- C7 counterexample: with an empty cloud feed the pass does return the
state unchanged, but the previously recorded adjustment percentage
(`-30`) is still what gets reported, not `0` as claimed. -/
theorem C7_counterexample :
    adjust_estimate_with_cloud_cover 0 (7/10) [] [] staleState = staleState ∧
    sensorReportedAdjustment
      (adjust_estimate_with_cloud_cover 0 (7/10) [] [] staleState) = -30 ∧
    (-30 : ℚ) ≠ 0 := by
  refine ⟨rfl, rfl, by norm_num⟩

/-- C7 (amended): on an empty cloud-cover feed the pass returns
immediately, leaving every entry of `watts`, `wh_period` and `wh_days` (and
the stored statistics) unchanged; the reported adjustment percentage is `0`
only when no earlier pass had recorded statistics (the sensor substitutes
`0` for missing statistics). -/
theorem C7_empty_feed_frame (nowDate : ℤ) (coeff : ℚ) (ctimes : List ℤ)
    (s : CoordinatorState) :
    adjust_estimate_with_cloud_cover nowDate coeff ctimes [] s = s ∧
    (s.adjustment_stats = none →
      sensorReportedAdjustment
        (adjust_estimate_with_cloud_cover nowDate coeff ctimes [] s) = 0) := by
  constructor
  · rfl
  · intro h
    show sensorReportedAdjustment s = 0
    rw [sensorReportedAdjustment, h]

/-- C7 witness: the amended theorem at a concrete fresh state. -/
theorem C7_empty_feed_frame_witness :
    adjust_estimate_with_cloud_cover 0 (7/10) [60] []
        { estimate := { watts := [(0, 10)], wh_period := [(0, 10)], wh_days := [(0, 10)] }
        , adjustment_stats := none }
      = { estimate := { watts := [(0, 10)], wh_period := [(0, 10)], wh_days := [(0, 10)] }
        , adjustment_stats := none } ∧
    sensorReportedAdjustment (adjust_estimate_with_cloud_cover 0 (7/10) [60] []
        { estimate := { watts := [(0, 10)], wh_period := [(0, 10)], wh_days := [(0, 10)] }
        , adjustment_stats := none }) = 0 := by
  have h := C7_empty_feed_frame 0 (7/10) [60]
    { estimate := { watts := [(0, 10)], wh_period := [(0, 10)], wh_days := [(0, 10)] }
    , adjustment_stats := none }
  exact ⟨h.1, h.2 rfl⟩

/-- C8 counterexample: every field supplied as a list has the common
length 2, yet `__post_init__` raises a ConfigError instead of
broadcasting the scalar `declination`. -/
theorem C8_counterexample :
    mixedScalarConfig.azimuth.toList.length = mixedScalarConfig.dc_kwp.toList.length ∧
    mixedScalarConfig.latitude.toList.length = mixedScalarConfig.dc_kwp.toList.length ∧
    mixedScalarConfig.longitude.toList.length = mixedScalarConfig.dc_kwp.toList.length ∧
    post_init mixedScalarConfig = .error .configError := by
  refine ⟨rfl, rfl, rfl, rfl⟩

/-- C8 (amended): when the five core fields are all lists of one common
length, construction succeeds and the three auxiliary scalar fields
(`efficiency_factor`, `damping_morning`, `damping_evening`) are broadcast
to that length.  When `dc_kwp` is a list, a core field that is a list of a
different length raises a ConfigError, and a scalar core field (here
`declination`) alongside list core fields also raises a ConfigError — the
five core fields are never broadcast.  Each auxiliary field supplied as a
list of a length different from `dc_kwp`'s raises a ConfigError.  All of
this is pure validation at construction, before any network call. -/
theorem C8_post_init_validation (az dec dc lat lon : List ℚ)
    (effx dmx dex : ℚ)
    (hlen : az.length = dc.length ∧ dec.length = dc.length ∧
      lat.length = dc.length ∧ lon.length = dc.length) :
    post_init { azimuth := .plist az, declination := .plist dec
              , dc_kwp := .plist dc, latitude := .plist lat
              , longitude := .plist lon, efficiency_factor := .scalar effx
              , damping_morning := .scalar dmx, damping_evening := .scalar dex }
      = .ok { azimuth := az, declination := dec, dc_kwp := dc
            , latitude := lat, longitude := lon
            , efficiency_factor := List.replicate dc.length effx
            , damping_morning := List.replicate dc.length dmx
            , damping_evening := List.replicate dc.length dex } ∧
    (∀ (az' dec' dc' lat' lon' : List ℚ) (eff' dm' de' : PyParam),
      az'.length ≠ dc'.length ∨ dec'.length ≠ dc'.length ∨
        lat'.length ≠ dc'.length ∨ lon'.length ≠ dc'.length →
      post_init { azimuth := .plist az', declination := .plist dec'
                , dc_kwp := .plist dc', latitude := .plist lat'
                , longitude := .plist lon', efficiency_factor := eff'
                , damping_morning := dm', damping_evening := de' }
        = .error .configError) ∧
    (∀ (x : ℚ) (az' dc' lat' lon' : List ℚ) (eff' dm' de' : PyParam),
      post_init { azimuth := .plist az', declination := .scalar x
                , dc_kwp := .plist dc', latitude := .plist lat'
                , longitude := .plist lon', efficiency_factor := eff'
                , damping_morning := dm', damping_evening := de' }
        = .error .configError) ∧
    (∀ es : List ℚ, es.length ≠ dc.length →
      post_init { azimuth := .plist az, declination := .plist dec
                , dc_kwp := .plist dc, latitude := .plist lat
                , longitude := .plist lon, efficiency_factor := .plist es
                , damping_morning := .scalar dmx, damping_evening := .scalar dex }
        = .error .configError) ∧
    (∀ ds : List ℚ, ds.length ≠ dc.length →
      post_init { azimuth := .plist az, declination := .plist dec
                , dc_kwp := .plist dc, latitude := .plist lat
                , longitude := .plist lon, efficiency_factor := .scalar effx
                , damping_morning := .plist ds, damping_evening := .scalar dex }
        = .error .configError) ∧
    (∀ ds : List ℚ, ds.length ≠ dc.length →
      post_init { azimuth := .plist az, declination := .plist dec
                , dc_kwp := .plist dc, latitude := .plist lat
                , longitude := .plist lon, efficiency_factor := .scalar effx
                , damping_morning := .scalar dmx, damping_evening := .plist ds }
        = .error .configError) := by
  refine ⟨?_, ?_, ?_, ?_, ?_, ?_⟩
  · simp only [post_init, List.any_cons, List.any_nil, PyParam.isList,
      Bool.or_true, Bool.true_or, if_pos, checkCoreParams, hlen.1, hlen.2.1,
      hlen.2.2.1, hlen.2.2.2, if_true, PyParam.toList, test_param_len]
    rfl
  · intro az' dec' dc' lat' lon' eff' dm' de' hmis
    by_cases h1 : az'.length = dc'.length
    · by_cases h2 : dec'.length = dc'.length
      · by_cases h3 : lat'.length = dc'.length
        · by_cases h4 : lon'.length = dc'.length
          · rcases hmis with h | h | h | h <;> [exact absurd h1 h;
              exact absurd h2 h; exact absurd h3 h; exact absurd h4 h]
          · simp only [post_init, List.any_cons, List.any_nil, PyParam.isList,
              Bool.or_true, Bool.true_or, checkCoreParams, h1, h2, h3, h4,
              if_true, if_false]
            rfl
        · simp only [post_init, List.any_cons, List.any_nil, PyParam.isList,
            Bool.or_true, Bool.true_or, checkCoreParams, h1, h2, h3,
            if_true, if_false]
          rfl
      · simp only [post_init, List.any_cons, List.any_nil, PyParam.isList,
          Bool.or_true, Bool.true_or, checkCoreParams, h1, h2,
          if_true, if_false]
        rfl
    · simp only [post_init, List.any_cons, List.any_nil, PyParam.isList,
        Bool.or_true, Bool.true_or, checkCoreParams, h1, if_false]
      rfl
  · intro x az' dc' lat' lon' eff' dm' de'
    by_cases h : az'.length = dc'.length
    · simp only [post_init, List.any_cons, List.any_nil, PyParam.isList,
        Bool.or_true, Bool.true_or, checkCoreParams, h, if_true]
      rfl
    · simp only [post_init, List.any_cons, List.any_nil, PyParam.isList,
        Bool.or_true, Bool.true_or, checkCoreParams, h, if_false]
      rfl
  · intro es hes
    simp only [post_init, List.any_cons, List.any_nil, PyParam.isList,
      Bool.or_true, Bool.true_or, checkCoreParams, hlen.1, hlen.2.1,
      hlen.2.2.1, hlen.2.2.2, if_true, PyParam.toList, test_param_len]
    simp [Bind.bind, Except.bind, Pure.pure, Except.pure, hes]
  · intro ds hds
    simp only [post_init, List.any_cons, List.any_nil, PyParam.isList,
      Bool.or_true, Bool.true_or, checkCoreParams, hlen.1, hlen.2.1,
      hlen.2.2.1, hlen.2.2.2, if_true, PyParam.toList, test_param_len]
    simp [Bind.bind, Except.bind, Pure.pure, Except.pure, hds]
  · intro ds hds
    simp only [post_init, List.any_cons, List.any_nil, PyParam.isList,
      Bool.or_true, Bool.true_or, checkCoreParams, hlen.1, hlen.2.1,
      hlen.2.2.1, hlen.2.2.2, if_true, PyParam.toList, test_param_len]
    simp [Bind.bind, Except.bind, Pure.pure, Except.pure, hds]

/-- C8 witness: the amended theorem at concrete inputs — matching lists
succeed with broadcast aux fields; a short `azimuth` list, a scalar
`declination`, and each mismatched auxiliary list raise ConfigError. -/
theorem C8_post_init_validation_witness :
    post_init { azimuth := .plist [10, 20], declination := .plist [30, 35]
              , dc_kwp := .plist [5, 6], latitude := .plist [48, 48]
              , longitude := .plist [2, 2], efficiency_factor := .scalar 1
              , damping_morning := .scalar 0, damping_evening := .scalar 0 }
      = .ok { azimuth := [10, 20], declination := [30, 35], dc_kwp := [5, 6]
            , latitude := [48, 48], longitude := [2, 2]
            , efficiency_factor := List.replicate 2 1
            , damping_morning := List.replicate 2 0
            , damping_evening := List.replicate 2 0 } ∧
    post_init { azimuth := .plist [10], declination := .plist [30, 35]
              , dc_kwp := .plist [5, 6], latitude := .plist [48, 48]
              , longitude := .plist [2, 2], efficiency_factor := .scalar 1
              , damping_morning := .scalar 0, damping_evening := .scalar 0 }
      = .error .configError ∧
    post_init { azimuth := .plist [10, 20], declination := .scalar 30
              , dc_kwp := .plist [5, 6], latitude := .plist [48, 48]
              , longitude := .plist [2, 2], efficiency_factor := .scalar 1
              , damping_morning := .scalar 0, damping_evening := .scalar 0 }
      = .error .configError ∧
    post_init { azimuth := .plist [10, 20], declination := .plist [30, 35]
              , dc_kwp := .plist [5, 6], latitude := .plist [48, 48]
              , longitude := .plist [2, 2], efficiency_factor := .plist [1]
              , damping_morning := .scalar 0, damping_evening := .scalar 0 }
      = .error .configError ∧
    post_init { azimuth := .plist [10, 20], declination := .plist [30, 35]
              , dc_kwp := .plist [5, 6], latitude := .plist [48, 48]
              , longitude := .plist [2, 2], efficiency_factor := .scalar 1
              , damping_morning := .plist [0], damping_evening := .scalar 0 }
      = .error .configError ∧
    post_init { azimuth := .plist [10, 20], declination := .plist [30, 35]
              , dc_kwp := .plist [5, 6], latitude := .plist [48, 48]
              , longitude := .plist [2, 2], efficiency_factor := .scalar 1
              , damping_morning := .scalar 0, damping_evening := .plist [0] }
      = .error .configError := by
  have h := C8_post_init_validation [10, 20] [30, 35] [5, 6] [48, 48] [2, 2]
    1 0 0 ⟨rfl, rfl, rfl, rfl⟩
  exact ⟨h.1,
    h.2.1 [10] [30, 35] [5, 6] [48, 48] [2, 2]
      (.scalar 1) (.scalar 0) (.scalar 0) (Or.inl (by decide)),
    h.2.2.1 30 [10, 20] [5, 6] [48, 48] [2, 2]
      (.scalar 1) (.scalar 0) (.scalar 0),
    h.2.2.2.1 [1] (by decide),
    h.2.2.2.2.1 [0] (by decide),
    h.2.2.2.2.2 [0] (by decide)⟩

/-- Zeta-free form of `dailyAvgCover`. -/
theorem dailyAvgCover_eq (ctimes : List ℤ) (data : List ℚ) (nowDate d : ℤ) :
    dailyAvgCover ctimes data nowDate d =
      if d ∈ dictKeys (if ctimes = [] then chunkTotals data nowDate
            else dateCloudTotals ctimes data)
          ∧ 0 < lookupD (if ctimes = [] then chunkCounts data nowDate
            else dateCloudCounts ctimes data) d 0 then
        lookupD (if ctimes = [] then chunkTotals data nowDate
            else dateCloudTotals ctimes data) d 0
          / lookupD (if ctimes = [] then chunkCounts data nowDate
            else dateCloudCounts ctimes data) d 0
      else daySliceAvg data nowDate d := rfl

/-- C2 counterexample: with the configured coefficient `1/2` and full
cloud cover on the day, the coordinator's daily pass still multiplies the
daily value by `1 - 100/100 * 0.7 = 0.3` (hardcoded `0.7`), giving `30`
rather than the `50` the claim's formula predicts. -/
theorem C2_counterexample :
    (adjust_estimate_with_cloud_cover 0 (1/2) [0] [100]
        { estimate := { watts := [], wh_period := [], wh_days := [(0, 100)] }
        , adjustment_stats := none }).estimate.wh_days = [(0, 30)] ∧
    (30 : ℚ) ≠ (100 : ℚ) * (1 - 100 / 100 * (1 / 2)) := by
  constructor
  · norm_num [adjust_estimate_with_cloud_cover, whDaysPassCoordinator,
      whPeriodPass, wattsPass, whPeriodTotal, dailyAvgCover_eq,
      dateCloudTotals, dateCloudCounts, accumDict, addToDict, lookupD,
      dictKeys, dateOf, minutesPerDay]
  · norm_num

/-- C2 (amended): the daily pass first averages the cloud cover attributed
to each date (equal to the arithmetic mean of the cloud samples dated to
it, with the slice fallback otherwise) and then applies
`1 - mean/100 * c` multiplicatively — where `c` is the hardcoded constant
`0.7` in the coordinator's pass and the configured coefficient in the
client-library pass. -/
theorem C2_daily_average_then_correct (ctimes : List ℤ) (data : List ℚ)
    (nowDate : ℤ) (coeff : ℚ) (wh_days : List (ℤ × ℚ)) (hct : ctimes ≠ []) :
    (∀ d, dailyAvgCover ctimes data nowDate d
        = specDailyMean ctimes data nowDate d) ∧
    whDaysPassCoordinator ctimes data nowDate wh_days
      = wh_days.map (fun p =>
          (p.1, p.2 * (1 - specDailyMean ctimes data nowDate p.1 / 100 * (7/10)))) ∧
    whDaysPassClient ctimes data nowDate coeff wh_days
      = wh_days.map (fun p =>
          (p.1, p.2 * (1 - specDailyMean ctimes data nowDate p.1 / 100 * coeff))) := by
  have havg : ∀ d, dailyAvgCover ctimes data nowDate d
      = specDailyMean ctimes data nowDate d := by
    intro d
    rw [dailyAvgCover_eq]
    simp only [if_neg hct]
    have hcount : lookupD (dateCloudCounts ctimes data) d 0
        = (((ctimes.zip data).filter (fun p => dateOf p.1 = d)).length : ℚ) := by
      unfold dateCloudCounts
      rw [lookupD_accumDict, sum_map_one]
    have htot : lookupD (dateCloudTotals ctimes data) d 0
        = (((ctimes.zip data).filter (fun p => dateOf p.1 = d)).map Prod.snd).sum := by
      unfold dateCloudTotals
      rw [lookupD_accumDict]
    have hkeys : d ∈ dictKeys (dateCloudTotals ctimes data)
        ↔ (ctimes.zip data).filter (fun p => dateOf p.1 = d) ≠ [] := by
      unfold dateCloudTotals
      rw [mem_dictKeys_accumDict]
      constructor
      · rintro ⟨a, ha, hka⟩ hcontra
        have : a ∈ (ctimes.zip data).filter (fun p => dateOf p.1 = d) :=
          List.mem_filter.mpr ⟨ha, by simpa using hka⟩
        rw [hcontra] at this
        simp at this
      · intro hne
        obtain ⟨a, ha⟩ := List.exists_mem_of_ne_nil _ hne
        have := List.mem_filter.mp ha
        exact ⟨a, this.1, by simpa using this.2⟩
    by_cases hfil : (ctimes.zip data).filter (fun p => dateOf p.1 = d) = []
    · rw [if_neg, specDailyMean, if_pos hfil]
      rintro ⟨hk, _⟩
      exact (hkeys.mp hk) hfil
    · have hlenpos : 0 < (((ctimes.zip data).filter
          (fun p => dateOf p.1 = d)).length : ℚ) := by
        have := List.length_pos.mpr hfil
        exact_mod_cast this
      rw [if_pos ⟨hkeys.mpr hfil, by rw [hcount]; exact hlenpos⟩,
        htot, hcount, specDailyMean, if_neg hfil]
  refine ⟨havg, ?_, ?_⟩
  · unfold whDaysPassCoordinator
    apply List.map_congr_left
    intro p _
    rw [havg p.1]
  · unfold whDaysPassClient
    apply List.map_congr_left
    intro p _
    rw [havg p.1]

/-- C2 witness: the amended theorem at a one-sample feed fully covering
day 0 and configured coefficient `1/2`. -/
theorem C2_daily_average_then_correct_witness :
    (∀ d, dailyAvgCover [0] [100] 0 d = specDailyMean [0] [100] 0 d) ∧
    whDaysPassCoordinator [0] [100] 0 [((0:ℤ), (100:ℚ))]
      = [((0:ℤ), (100:ℚ))].map (fun p =>
          (p.1, p.2 * (1 - specDailyMean [0] [100] 0 p.1 / 100 * (7/10)))) ∧
    whDaysPassClient [0] [100] 0 (1/2) [((0:ℤ), (100:ℚ))]
      = [((0:ℤ), (100:ℚ))].map (fun p =>
          (p.1, p.2 * (1 - specDailyMean [0] [100] 0 p.1 / 100 * (1/2)))) :=
  C2_daily_average_then_correct [0] [100] 0 (1/2) [((0:ℤ), (100:ℚ))] (by simp)

/-- C1: at a timestamp with an exactly matching cloud timestamp (difference
0 ≤ 2h, cover 100%), the `watts` loop applies the nearest-timestamp factor
(`0.3`, yielding 30), but the `wh_period` loop — whose alignment branch is
a bare `pass` stub — keeps cover `0` and leaves the value unchanged at 100,
contradicting both the claim and the code's own "same alignment as watts"
comments. -/
theorem C1_wh_period_alignment_stubbed :
    wattsCloudPercent [720] [100] 0 720 = 100 ∧
    whPeriodCloudPercent [720] [100] 0 720 = 0 ∧
    (adjust_estimate_with_cloud_cover 0 (7/10) [720] [100]
        { estimate := { watts := [(720, 100)], wh_period := [(720, 100)]
                      , wh_days := [] }
        , adjustment_stats := none }).estimate.watts = [(720, 30)] ∧
    (adjust_estimate_with_cloud_cover 0 (7/10) [720] [100]
        { estimate := { watts := [(720, 100)], wh_period := [(720, 100)]
                      , wh_days := [] }
        , adjustment_stats := none }).estimate.wh_period = [(720, 100)] := by
  have hdict : buildCloudDict [720] [100] = [(720, 100)] := by
    norm_num [buildCloudDict, dictInsert]
  have hwatts : wattsCloudPercent [720] [100] 0 720 = 100 := by
    unfold wattsCloudPercent
    rw [hdict]
    norm_num [findClosest]
  have hwh : whPeriodCloudPercent [720] [100] 0 720 = 0 := by
    unfold whPeriodCloudPercent
    rw [hdict]
    norm_num
  refine ⟨hwatts, hwh, ?_, ?_⟩
  · show wattsPass [720] [100] 0 (7/10) [(720, 100)] = [(720, 30)]
    unfold wattsPass
    rw [List.map_singleton, hwatts]
    norm_num [adjustmentFactor]
  · show whPeriodPass [720] [100] 0 (7/10) [(720, 100)] = [(720, 100)]
    unfold whPeriodPass
    rw [List.map_singleton, hwh]
    norm_num [adjustmentFactor]

end SunforecastPlus
